import Mathlib

/-!
Verification of the nero-fashion-frontend client against its specification.

JavaScript strings are embedded as lists of Unicode code points (`List Nat`);
JavaScript string operations used by the code (`toLowerCase`, `trim`,
`includes`) are given executable definitions on that representation.
-/

namespace Nero

/-- Embed a Lean string literal as a list of code points (used for concrete
test inputs only). -/
def jsStr (s : String) : List Nat :=
  s.data.map Char.toNat

/-- JavaScript `String.prototype.toLowerCase` on a single ASCII code point:
the code only ever compares lowercased text, and the catalog data is ASCII. -/
def toLowerCode (c : Nat) : Nat :=
  if 65 ≤ c ∧ c ≤ 90 then c + 32 else c

/-- Whitespace code points removed by JavaScript `String.prototype.trim`
(the ASCII ones). -/
def jsWsCode (c : Nat) : Bool :=
  decide (c = 32 ∨ c = 9 ∨ c = 10 ∨ c = 11 ∨ c = 12 ∨ c = 13)

/-- JavaScript `toLowerCase` on a whole string. -/
def lowerSeg (s : List Nat) : List Nat :=
  s.map toLowerCode

/-- JavaScript `String.prototype.trim`: drop whitespace from both ends. -/
def jsTrim (s : List Nat) : List Nat :=
  ((s.dropWhile jsWsCode).reverse.dropWhile jsWsCode).reverse

/-- `leadSeg q s` holds when `q` is an initial segment of `s`. -/
def leadSeg : List Nat → List Nat → Bool
  | [], _ => true
  | _ :: _, [] => false
  | a :: q, b :: s => a == b && leadSeg q s

/-- JavaScript `String.prototype.includes`: `q` occurs contiguously in `s`. -/
def subSeg : List Nat → List Nat → Bool
  | [], q => leadSeg q []
  | s@(_ :: s₁), q => leadSeg q s || subSeg s₁ q

/-- The `Product` entity from `src/types/Product.ts` (`smartSellService.ts`
re-exports the same shape): id, name, description, picture, price (an opaque
display string) and a list of category labels. -/
structure Product where
  id : List Nat
  name : List Nat
  description : List Nat
  picture : List Nat
  price : List Nat
  categories : List (List Nat)
deriving DecidableEq, Repr

/-- `filteredProducts` from `src/components/ProductList.tsx` lines 15-26:
if the query trims to empty, the product list is returned as-is; otherwise
the query is lowercased and trimmed and products are kept when it occurs in
the lowercased name, description, or some category.  (`product.categories`
is a non-nullable `string[]`, so the JS truthiness guard on it is always
true and the `&&` reduces to the `.some` call.) -/
def filteredProducts (products : List Product) (searchQuery : List Nat) : List Product :=
  if jsTrim searchQuery = [] then
    products
  else
    let query := jsTrim (lowerSeg searchQuery)
    products.filter fun product =>
      subSeg (lowerSeg product.name) query ||
      subSeg (lowerSeg product.description) query ||
      product.categories.any fun category => subSeg (lowerSeg category) query

/-- Specification-side notion of substring: `q` occurs contiguously in `s`. -/
def isSubstrOf (q s : List Nat) : Prop :=
  ∃ pre post, s = pre ++ q ++ post

/-- Specification-side case-insensitive match: the lowercased needle occurs
in the lowercased haystack. -/
def ciMatches (q s : List Nat) : Prop :=
  isSubstrOf (lowerSeg q) (lowerSeg s)

/-- Specification-side product match, written from the spec sentence: the
trimmed query is a case-insensitive substring of the name, of the
description, or of at least one category label. -/
def specMatch (p : Product) (searchQuery : List Nat) : Prop :=
  ciMatches (jsTrim searchQuery) p.name ∨
  ciMatches (jsTrim searchQuery) p.description ∨
  ∃ c ∈ p.categories, ciMatches (jsTrim searchQuery) c

theorem leadSeg_iff (q s : List Nat) : leadSeg q s = true ↔ ∃ r, s = q ++ r := by
  induction q generalizing s with
  | nil =>
    simp [leadSeg]
  | cons a q ih =>
    cases s with
    | nil =>
      simp [leadSeg]
    | cons b s =>
      simp only [leadSeg, Bool.and_eq_true, beq_iff_eq, ih, List.cons_append,
        List.cons.injEq]
      constructor
      · rintro ⟨rfl, r, rfl⟩
        exact ⟨r, rfl, rfl⟩
      · rintro ⟨r, rfl, rfl⟩
        exact ⟨rfl, r, rfl⟩

theorem subSeg_iff (s q : List Nat) : subSeg s q = true ↔ isSubstrOf q s := by
  induction s with
  | nil =>
    simp only [subSeg, leadSeg_iff, isSubstrOf]
    constructor
    · rintro ⟨r, hr⟩
      exact ⟨[], r, hr⟩
    · rintro ⟨pre, post, h⟩
      have h3 := h.symm
      simp only [List.append_eq_nil] at h3
      exact ⟨[], by simp [h3.1.2]⟩
  | cons b s ih =>
    simp only [subSeg, Bool.or_eq_true, leadSeg_iff, ih, isSubstrOf]
    constructor
    · rintro (⟨r, hr⟩ | ⟨pre, post, h⟩)
      · exact ⟨[], r, by simpa using hr⟩
      · exact ⟨b :: pre, post, by simp [h]⟩
    · rintro ⟨pre, post, h⟩
      cases pre with
      | nil =>
        exact Or.inl ⟨post, by simpa using h⟩
      | cons x pre =>
        simp only [List.cons_append, List.cons.injEq] at h
        exact Or.inr ⟨pre, post, h.2⟩

theorem jsWsCode_toLowerCode (c : Nat) : jsWsCode (toLowerCode c) = jsWsCode c := by
  unfold toLowerCode jsWsCode
  split
  · rename_i h
    simp only [decide_eq_decide]
    omega
  · rfl

theorem dropWhile_lowerSeg (s : List Nat) :
    (lowerSeg s).dropWhile jsWsCode = lowerSeg (s.dropWhile jsWsCode) := by
  induction s with
  | nil => rfl
  | cons c s ih =>
    simp only [lowerSeg, List.map_cons, List.dropWhile_cons, jsWsCode_toLowerCode]
    split
    · exact ih
    · rfl

theorem reverse_lowerSeg (s : List Nat) :
    (lowerSeg s).reverse = lowerSeg s.reverse := by
  simp [lowerSeg]

theorem jsTrim_lowerSeg (s : List Nat) :
    jsTrim (lowerSeg s) = lowerSeg (jsTrim s) := by
  unfold jsTrim
  rw [dropWhile_lowerSeg, reverse_lowerSeg, dropWhile_lowerSeg, reverse_lowerSeg]

/-- C1: for every product list and every query whose trimmed form is
non-empty, a product is returned by the search filter iff it belongs to the
input list and the trimmed query is a case-insensitive substring of its
name, of its description, or of at least one of its category labels. -/
theorem c1_search_filter_exact (products : List Product) (searchQuery : List Nat)
    (p : Product) (hq : jsTrim searchQuery ≠ []) :
    p ∈ filteredProducts products searchQuery ↔ p ∈ products ∧ specMatch p searchQuery := by
  unfold filteredProducts
  rw [if_neg hq, List.mem_filter]
  refine and_congr_right fun _ => ?_
  rw [jsTrim_lowerSeg]
  simp only [Bool.or_eq_true, subSeg_iff, List.any_eq_true, specMatch, ciMatches]
  constructor
  · rintro ((h | h) | ⟨c, hc, h⟩)
    · exact Or.inl h
    · exact Or.inr (Or.inl h)
    · exact Or.inr (Or.inr ⟨c, hc, h⟩)
  · rintro (h | h | ⟨c, hc, h⟩)
    · exact Or.inl (Or.inl h)
    · exact Or.inl (Or.inr h)
    · exact Or.inr ⟨c, hc, h⟩

/-- A concrete catalog entry used by the witnesses. -/
def sampleShirt : Product where
  id := jsStr "1"
  name := jsStr "Elegant Shirt"
  description := jsStr "A crisp cotton shirt for work"
  picture := jsStr "/img/shirt.jpg"
  price := jsStr "59.90"
  categories := [jsStr "clothing", jsStr "work"]

/-- A second concrete catalog entry used by the witnesses. -/
def sampleGlasses : Product where
  id := jsStr "2"
  name := jsStr "Summer Sunglasses"
  description := jsStr "UV protection for sunny days"
  picture := jsStr "/img/sun.jpg"
  price := jsStr "120.00"
  categories := [jsStr "accessories"]

theorem c1_search_filter_exact_witness :
    jsTrim (jsStr " Shirt ") ≠ [] ∧
      (sampleShirt ∈ filteredProducts [sampleShirt, sampleGlasses] (jsStr " Shirt ") ↔
        sampleShirt ∈ [sampleShirt, sampleGlasses] ∧ specMatch sampleShirt (jsStr " Shirt ")) :=
  ⟨by decide, c1_search_filter_exact [sampleShirt, sampleGlasses] (jsStr " Shirt ")
    sampleShirt (by decide)⟩

/-- C2: when the search query is empty or consists only of whitespace, the
search filter returns the product list unchanged. -/
theorem c2_empty_query_returns_all (products : List Product) (searchQuery : List Nat)
    (hws : ∀ c ∈ searchQuery, jsWsCode c = true) :
    filteredProducts products searchQuery = products := by
  have htrim : jsTrim searchQuery = [] := by
    unfold jsTrim
    have h1 : searchQuery.dropWhile jsWsCode = [] :=
      List.dropWhile_eq_nil_iff.mpr hws
    rw [h1]
    rfl
  unfold filteredProducts
  rw [if_pos htrim]

theorem c2_empty_query_returns_all_witness :
    (∀ c ∈ jsStr "  ", jsWsCode c = true) ∧
      filteredProducts [sampleShirt, sampleGlasses] (jsStr "  ") = [sampleShirt, sampleGlasses] :=
  ⟨by decide, c2_empty_query_returns_all [sampleShirt, sampleGlasses] (jsStr "  ") (by decide)⟩

/-- C7: the search filter never mutates a product: its output is a sublist
of the input (a subsequence preserving relative order whose elements are the
input products themselves, hence with every field identical), and every
returned product is a member of the input list. -/
theorem c7_filter_no_mutation (products : List Product) (searchQuery : List Nat) :
    (filteredProducts products searchQuery).Sublist products ∧
      ∀ p, p ∈ filteredProducts products searchQuery → p ∈ products := by
  have hsub : (filteredProducts products searchQuery).Sublist products := by
    unfold filteredProducts
    split
    · exact List.Sublist.refl products
    · exact List.filter_sublist products
  exact ⟨hsub, fun p hp => hsub.mem hp⟩

theorem c7_filter_no_mutation_witness :
    sampleShirt ∈ [sampleShirt, sampleGlasses] :=
  (c7_filter_no_mutation [sampleShirt, sampleGlasses] (jsStr "shirt")).2 sampleShirt (by decide)

/-!
## Speech-synthesis controller

`ImageDescribe.tsx`, `SmartProductSell.tsx` and `FashionAssistant.tsx` each
wrap the browser's global `window.speechSynthesis` with the same controller:
two local flags (`isPlaying`, `isPaused`) updated by the utterance callbacks
and four handler functions.  The state below combines one modal's flags with
the browser-level queue (`queue` counts utterances queued in the
synthesiser) and the synthesiser's own paused flag.
-/

/-- One modal's speech controller together with the browser synthesiser
state it manipulates.  `supported` is the `speechSupported` flag
(`'speechSynthesis' in window`); `hasText` records whether the AI result
text to be spoken is present (`result?.description` / `result?.sell_text`). -/
structure SpeechState where
  supported : Bool
  hasText : Bool
  queue : Nat
  synthPaused : Bool
  isPlaying : Bool
  isPaused : Bool
deriving DecidableEq, Repr

/-- `window.speechSynthesis.speaking`: an utterance is in the queue. -/
def synthSpeaking (st : SpeechState) : Bool :=
  st.queue != 0

/-- `window.speechSynthesis.cancel()`: empties the utterance queue. -/
def cancelSynth (st : SpeechState) : SpeechState :=
  { st with queue := 0 }

/-- `window.speechSynthesis.speak(utterance)`: queues one utterance. -/
def speakSynth (st : SpeechState) : SpeechState :=
  { st with queue := st.queue + 1 }

/-- `playDescription` from `ImageDescribe.tsx` lines 58-88: bail out when
speech is unsupported or there is no description text; otherwise cancel any
current speech, then speak a fresh utterance.  The flag updates happen in
the utterance callbacks, not here. -/
def playDescription (st : SpeechState) : SpeechState :=
  if !st.supported || !st.hasText then st
  else speakSynth (cancelSynth st)

/-- `playRecommendation` from `SmartProductSell.tsx` lines 46-76; the body
is identical to `playDescription` (it speaks `result.sell_text`). -/
def playRecommendation (st : SpeechState) : SpeechState :=
  if !st.supported || !st.hasText then st
  else speakSynth (cancelSynth st)

/-- `playAdvice` from `FashionAssistant.tsx`; the body is identical to
`playDescription` (it speaks `result.description`). -/
def playAdvice (st : SpeechState) : SpeechState :=
  if !st.supported || !st.hasText then st
  else speakSynth (cancelSynth st)

/-- The utterance's `onstart` callback: sets `isPlaying`, clears `isPaused`. -/
def onstartEv (st : SpeechState) : SpeechState :=
  { st with isPlaying := true, isPaused := false }

/-- The utterance's `onend` callback: the utterance leaves the queue and
both flags are cleared. -/
def onendEv (st : SpeechState) : SpeechState :=
  { st with queue := st.queue - 1, isPlaying := false, isPaused := false }

/-- The utterance's `onerror` callback: the utterance leaves the queue and
both flags are cleared. -/
def onerrorEv (st : SpeechState) : SpeechState :=
  { st with queue := st.queue - 1, isPlaying := false, isPaused := false }

/-- `pauseDescription` from `ImageDescribe.tsx` lines 90-97: a no-op when
unsupported; otherwise pauses and sets `isPaused` only when the synthesiser
is speaking and not already paused. -/
def pauseDescription (st : SpeechState) : SpeechState :=
  if !st.supported then st
  else if synthSpeaking st && !st.synthPaused then
    { st with synthPaused := true, isPaused := true }
  else st

/-- `resumeDescription` from `ImageDescribe.tsx` lines 99-106: a no-op when
unsupported; otherwise resumes and clears `isPaused` only when the
synthesiser is paused. -/
def resumeDescription (st : SpeechState) : SpeechState :=
  if !st.supported then st
  else if st.synthPaused then
    { st with synthPaused := false, isPaused := false }
  else st

/-- `stopDescription` from `ImageDescribe.tsx` lines 108-114: a no-op when
unsupported; otherwise cancels and clears both flags. -/
def stopDescription (st : SpeechState) : SpeechState :=
  if !st.supported then st
  else { st with queue := 0, isPlaying := false, isPaused := false }

/-- `pauseRecommendation` from `SmartProductSell.tsx` lines 78-85; the body
is identical to `pauseDescription`. -/
def pauseRecommendation (st : SpeechState) : SpeechState :=
  if !st.supported then st
  else if synthSpeaking st && !st.synthPaused then
    { st with synthPaused := true, isPaused := true }
  else st

/-- `resumeRecommendation` from `SmartProductSell.tsx` lines 87-94; the body
is identical to `resumeDescription`. -/
def resumeRecommendation (st : SpeechState) : SpeechState :=
  if !st.supported then st
  else if st.synthPaused then
    { st with synthPaused := false, isPaused := false }
  else st

/-- `stopRecommendation` from `SmartProductSell.tsx` lines 96-102; the body
is identical to `stopDescription`. -/
def stopRecommendation (st : SpeechState) : SpeechState :=
  if !st.supported then st
  else { st with queue := 0, isPlaying := false, isPaused := false }

/-- `stopAdvice` from `FashionAssistant.tsx`; the body is identical to
`stopDescription`. -/
def stopAdvice (st : SpeechState) : SpeechState :=
  if !st.supported then st
  else { st with queue := 0, isPlaying := false, isPaused := false }

/-- The controller's initial state: `useState(false)` for both flags, an
empty synthesiser queue, synthesiser not paused. -/
def speechInit (supported hasText : Bool) : SpeechState :=
  ⟨supported, hasText, 0, false, false, false⟩

/-- States of one modal's speech controller reachable through its
UI-exposed operations.  The guards on `play`, `pause`, `resume` and `stop`
are the JSX rendering conditions of the corresponding buttons (play shown
when `!isPlaying`; pause when `isPlaying && !isPaused`; resume when
`isPlaying && isPaused`; stop when `isPlaying`); the callback transitions
require an utterance to exist; `setText` models the AI result arriving or
being cleared. -/
inductive SpeechReach : SpeechState → Prop where
  | init (supported hasText : Bool) : SpeechReach (speechInit supported hasText)
  | play {s : SpeechState} : SpeechReach s → s.isPlaying = false →
      SpeechReach (playDescription s)
  | pause {s : SpeechState} : SpeechReach s → s.isPlaying = true →
      s.isPaused = false → SpeechReach (pauseDescription s)
  | resume {s : SpeechState} : SpeechReach s → s.isPlaying = true →
      s.isPaused = true → SpeechReach (resumeDescription s)
  | stop {s : SpeechState} : SpeechReach s → s.isPlaying = true →
      SpeechReach (stopDescription s)
  | onstart {s : SpeechState} : SpeechReach s → 0 < s.queue →
      SpeechReach (onstartEv s)
  | onend {s : SpeechState} : SpeechReach s → 0 < s.queue →
      SpeechReach (onendEv s)
  | onerror {s : SpeechState} : SpeechReach s → 0 < s.queue →
      SpeechReach (onerrorEv s)
  | setText {s : SpeechState} (b : Bool) : SpeechReach s →
      SpeechReach { s with hasText := b }

/-- C3: every play operation cancels the in-flight utterance before
speaking (the three modals' play handlers are the same cancel-then-speak
function), so every reachable controller state has at most one utterance
queued in the synthesiser. -/
theorem c3_play_cancels_before_speak :
    (∀ s : SpeechState, SpeechReach s → s.queue ≤ 1) ∧
      playRecommendation = playDescription ∧ playAdvice = playDescription := by
  refine ⟨fun s h => ?_, rfl, rfl⟩
  induction h with
  | init supported hasText => exact Nat.zero_le 1
  | play h hguard ih =>
    unfold playDescription
    split
    · exact ih
    · exact Nat.le_refl 1
  | pause h h1 h2 ih =>
    unfold pauseDescription
    split
    · exact ih
    · split
      · exact ih
      · exact ih
  | resume h h1 h2 ih =>
    unfold resumeDescription
    split
    · exact ih
    · split
      · exact ih
      · exact ih
  | stop h h1 ih =>
    unfold stopDescription
    split
    · exact ih
    · exact Nat.zero_le 1
  | onstart h hq ih => exact ih
  | onend h hq ih => exact Nat.le_trans (Nat.sub_le _ _) ih
  | onerror h hq ih => exact Nat.le_trans (Nat.sub_le _ _) ih
  | setText b h ih => exact ih

theorem c3_play_cancels_before_speak_witness :
    (playDescription (speechInit true true)).queue ≤ 1 :=
  c3_play_cancels_before_speak.1 (playDescription (speechInit true true))
    (SpeechReach.play (SpeechReach.init true true) (by decide))

/-- C5: when speech synthesis is unsupported, pause, resume and stop (in
both the describe and smart-sell modals) leave the whole controller state
unchanged; when supported, pause is the identity unless the synthesiser is
speaking and not paused, and resume is the identity unless the synthesiser
is paused. -/
theorem c5_guarded_no_ops (st : SpeechState) :
    (st.supported = false →
      pauseDescription st = st ∧ resumeDescription st = st ∧ stopDescription st = st ∧
      pauseRecommendation st = st ∧ resumeRecommendation st = st ∧
      stopRecommendation st = st) ∧
    (st.supported = true →
      (¬(synthSpeaking st = true ∧ st.synthPaused = false) →
        pauseDescription st = st ∧ pauseRecommendation st = st) ∧
      (st.synthPaused = false →
        resumeDescription st = st ∧ resumeRecommendation st = st)) := by
  constructor
  · intro hsup
    unfold pauseDescription resumeDescription stopDescription pauseRecommendation
      resumeRecommendation stopRecommendation
    simp [hsup]
  · intro hsup
    constructor
    · intro hng
      unfold pauseDescription pauseRecommendation
      have hcond : (synthSpeaking st && !st.synthPaused) = false := by
        cases hs : synthSpeaking st with
        | false => simp
        | true =>
          cases hp : st.synthPaused with
          | false => exact absurd ⟨hs, hp⟩ hng
          | true => simp [hp]
      simp [hsup, hcond]
    · intro hpause
      unfold resumeDescription resumeRecommendation
      simp [hsup, hpause]

theorem c5_guarded_no_ops_witness :
    pauseDescription (speechInit false true) = speechInit false true ∧
      resumeDescription (speechInit false true) = speechInit false true ∧
      stopDescription (speechInit false true) = speechInit false true ∧
      pauseRecommendation (speechInit false true) = speechInit false true ∧
      resumeRecommendation (speechInit false true) = speechInit false true ∧
      stopRecommendation (speechInit false true) = speechInit false true :=
  (c5_guarded_no_ops (speechInit false true)).1 (by decide)

/-- C9: in every state of the speech controller reachable through its
UI-exposed operations, `isPaused` implies `isPlaying`; and in the initial
state both flags are false. -/
theorem c9_flag_invariant :
    (∀ s : SpeechState, SpeechReach s → s.isPaused = true → s.isPlaying = true) ∧
      (∀ supported hasText : Bool,
        (speechInit supported hasText).isPlaying = false ∧
          (speechInit supported hasText).isPaused = false) := by
  refine ⟨fun s h => ?_, fun supported hasText => ⟨rfl, rfl⟩⟩
  induction h with
  | init supported hasText => intro h; exact Bool.noConfusion h
  | play h hguard ih =>
    unfold playDescription
    split
    · exact ih
    · exact ih
  | pause h h1 h2 ih =>
    unfold pauseDescription
    split
    · exact ih
    · split
      · intro _; exact h1
      · exact ih
  | resume h h1 h2 ih =>
    unfold resumeDescription
    split
    · exact ih
    · split
      · intro hfalse; exact Bool.noConfusion hfalse
      · exact ih
  | stop h h1 ih =>
    unfold stopDescription
    split
    · exact ih
    · intro hfalse; exact Bool.noConfusion hfalse
  | onstart h hq ih => intro _; rfl
  | onend h hq ih => intro hfalse; exact Bool.noConfusion hfalse
  | onerror h hq ih => intro hfalse; exact Bool.noConfusion hfalse
  | setText b h ih => exact ih

theorem c9_flag_invariant_witness :
    (pauseDescription (onstartEv (playDescription (speechInit true true)))).isPlaying = true :=
  c9_flag_invariant.1 _
    (SpeechReach.pause
      (SpeechReach.onstart
        (SpeechReach.play (SpeechReach.init true true) (by decide)) (by decide))
      (by decide) (by decide))
    (by decide)

/-!
## Search-term highlighting

`src/utils/searchHighlight.tsx` builds `new RegExp('(' + searchTerm + ')',
'gi')` from the raw search term and splits the text with it, so the RegExp
constructor throws a `SyntaxError` whenever the interpolated term makes the
pattern syntactically invalid (for example a lone `(` leaves a group
unterminated).  The constructor is modelled by a parenthesis-balance check
(the aspect the interpolation can break), and the split is modelled as a
case-insensitive literal split-with-capture, which is the regex semantics
whenever the term contains no regex metacharacter.  The React `parts.map`
wraps each part in a `<mark>` node or leaves it as text; either way the
part's text content is the part itself, so the embedding returns the list
of part contents.
-/

/-- Code points that are metacharacters of JavaScript regular expressions. -/
def regexMetaCode (c : Nat) : Bool :=
  decide (c = 36 ∨ c = 40 ∨ c = 41 ∨ c = 42 ∨ c = 43 ∨ c = 46 ∨ c = 63 ∨
    c = 91 ∨ c = 92 ∨ c = 93 ∨ c = 94 ∨ c = 123 ∨ c = 124 ∨ c = 125)

/-- Parenthesis-balance scan of a regex pattern: `d` is the number of open
groups; a close with no open group, or a dangling open group, is invalid. -/
def parenScan : List Nat → Nat → Bool
  | [], d => d == 0
  | c :: rest, d =>
    if c = 40 then parenScan rest (d + 1)
    else if c = 41 then
      if d = 0 then false else parenScan rest (d - 1)
    else parenScan rest d

/-- Restricted model of `new RegExp(pattern)` succeeding: the pattern's
group parentheses balance. -/
def regexCtorOk (pattern : List Nat) : Bool :=
  parenScan pattern 0

/-- First index of a case-insensitive occurrence of `q` in the list (the
`i` flag of the constructed regex lowercases both sides). -/
def findAt (q : List Nat) : List Nat → Option Nat
  | [] => none
  | c :: rest =>
    if leadSeg (lowerSeg q) (lowerSeg (c :: rest)) then some 0
    else (findAt q rest).map (· + 1)

theorem findAt_ne_nil {q s : List Nat} {i : Nat} (h : findAt q s = some i) :
    s ≠ [] := by
  intro hnil
  subst hnil
  exact Option.noConfusion h

/-- `text.split(/(term)/gi)` for a literal term: alternating unmatched
chunks and matched occurrences, both kept in the output. -/
def splitCap (q s : List Nat) : List (List Nat) :=
  if _hq : q = [] then [s]
  else
    match hm : findAt q s with
    | none => [s]
    | some i =>
      s.take i :: (s.drop i).take q.length :: splitCap q ((s.drop i).drop q.length)
termination_by s.length
decreasing_by
  simp only [List.length_drop]
  have hne : s ≠ [] := findAt_ne_nil hm
  have hq1 : 0 < q.length := List.length_pos.mpr _hq
  have hs1 : 0 < s.length := List.length_pos.mpr hne
  omega

theorem splitCap_flatten (q : List Nat) : ∀ s, (splitCap q s).flatten = s := by
  refine splitCap.induct q (fun s => (splitCap q s).flatten = s) ?_ ?_ ?_
  · intro x hq
    rw [splitCap, dif_pos hq]
    simp
  · intro x hq hm
    rw [splitCap, dif_neg hq]
    split
    · simp
    · rename_i j hsome
      rw [hm] at hsome
      exact Option.noConfusion hsome
  · intro x hq i hm ih
    rw [splitCap, dif_neg hq]
    split
    · rename_i hnone
      rw [hm] at hnone
      exact Option.noConfusion hnone
    · rename_i j hsome
      rw [hm] at hsome
      injection hsome with hij
      subst hij
      simp only [List.flatten_cons]
      rw [ih, List.take_append_drop, List.take_append_drop]

/-- `highlightSearchTerm` from `src/utils/searchHighlight.tsx` lines 3-20:
a blank-trimming term returns the text as a single part; otherwise the
pattern `(term)` is compiled (throwing, modelled as `Except.error`, when it
is invalid) and the text is split on it, keeping the separators. -/
def highlightSearchTerm (text searchTerm : List Nat) :
    Except Unit (List (List Nat)) :=
  if jsTrim searchTerm = [] then Except.ok [text]
  else if regexCtorOk (40 :: searchTerm ++ [41]) then
    Except.ok (splitCap searchTerm text)
  else Except.error ()

/-- C8 (counterexample): for the search term `"("` — explicitly included in
the claim — `highlightSearchTerm` does not return a part list at all: the
interpolated pattern `((` + `)` is an invalid regular expression, so the
`RegExp` constructor throws. -/
theorem c8_counterexample :
    highlightSearchTerm (jsStr "Nero Fashion") (jsStr "(") = Except.error () := by
  rfl

theorem parenScan_skip (rest : List Nat) (d : Nat) :
    ∀ l : List Nat, (∀ c ∈ l, regexMetaCode c = false) →
      parenScan (l ++ rest) d = parenScan rest d := by
  intro l
  induction l with
  | nil => intro _; rfl
  | cons c l ih =>
    intro h
    have hc : regexMetaCode c = false := h c (List.mem_cons_self c l)
    have h40 : ¬(c = 40) := fun he => by rw [he] at hc; exact Bool.noConfusion hc
    have h41 : ¬(c = 41) := fun he => by rw [he] at hc; exact Bool.noConfusion hc
    show parenScan (c :: (l ++ rest)) d = parenScan rest d
    simp only [parenScan, h40, h41, if_false]
    exact ih fun x hx => h x (List.mem_cons_of_mem c hx)

/-- C8 (amended): for every text and every search term free of regex
metacharacters, `highlightSearchTerm` returns without throwing a list of
parts whose concatenation is the original text; a term such as `"("` that
makes the interpolated pattern invalid instead causes the `RegExp`
constructor to throw. -/
theorem c8_highlight_parts_concat (text searchTerm : List Nat)
    (h : ∀ c ∈ searchTerm, regexMetaCode c = false) :
    ∃ parts, highlightSearchTerm text searchTerm = Except.ok parts ∧
      parts.flatten = text := by
  unfold highlightSearchTerm
  by_cases htrim : jsTrim searchTerm = []
  · rw [if_pos htrim]
    exact ⟨[text], rfl, by simp⟩
  · rw [if_neg htrim]
    have hok : regexCtorOk (40 :: searchTerm ++ [41]) = true := by
      show parenScan ((40 : Nat) :: (searchTerm ++ [41])) 0 = true
      have h1 : parenScan ((40 : Nat) :: (searchTerm ++ [41])) 0 =
          parenScan (searchTerm ++ [41]) 1 := by
        simp [parenScan]
      rw [h1, parenScan_skip [41] 1 searchTerm h]
      rfl
    rw [if_pos hok]
    exact ⟨splitCap searchTerm text, rfl, splitCap_flatten searchTerm text⟩

theorem c8_highlight_parts_concat_witness :
    (∀ c ∈ jsStr "an", regexMetaCode c = false) ∧
      ∃ parts, highlightSearchTerm (jsStr "Banana") (jsStr "an") = Except.ok parts ∧
        parts.flatten = jsStr "Banana" :=
  ⟨by decide, c8_highlight_parts_concat (jsStr "Banana") (jsStr "an") (by decide)⟩

/-!
## Smart-sell HTTP service wrapper and view-state hooks

`SmartSellService.getProductRecommendation` builds a `FormData` body and
POSTs it; the transport (`axios.post` plus JSON parsing) is passed in as a
function from the form body to either a parsed response or an error
message, and the wrapper returns `response.data` unchanged, propagating
transport failures to the caller (it contains no try/catch).
-/

/-- A value appended to a `FormData` body: an uploaded file or a string. -/
inductive FormValue where
  | file : List Nat → FormValue
  | str : List Nat → FormValue
deriving DecidableEq, Repr

/-- `SmartSellRequest` from `src/services/smartSellService.ts`: `image` is
the uploaded `File` (modelled by its contents), `model_name` and `stream`
are optional. -/
structure SmartSellRequest where
  image : List Nat
  text : List Nat
  model_name : Option (List Nat)
  stream : Option Bool
deriving DecidableEq, Repr

/-- `SmartSellResponse` from `src/services/smartSellService.ts`. -/
structure SmartSellResponse where
  image_id : List Nat
  sell_text : List Nat
  image_base64 : List Nat
  product_id : List Nat
  product_name : List Nat
deriving DecidableEq, Repr

/-- JavaScript `x || d` for an optional string: `undefined` and the empty
string are falsy and fall back to the default. -/
def jsOrDefaultStr (v : Option (List Nat)) (d : List Nat) : List Nat :=
  match v with
  | none => d
  | some s => if s = [] then d else s

/-- JavaScript `(params.stream || false)`: `undefined` falls back to
`false`, a boolean is kept. -/
def jsOrFalse (v : Option Bool) : Bool :=
  match v with
  | none => false
  | some b => b

/-- JavaScript `Boolean.prototype.toString`. -/
def boolToString (b : Bool) : List Nat :=
  if b then jsStr "true" else jsStr "false"

/-- The four `formData.append` calls of
`SmartSellService.getProductRecommendation`
(`src/services/smartSellService.ts` lines 32-37), in order. -/
def buildSmartSellForm (params : SmartSellRequest) : List (List Nat × FormValue) :=
  [ (jsStr "image", FormValue.file params.image),
    (jsStr "text", FormValue.str params.text),
    (jsStr "model_name", FormValue.str (jsOrDefaultStr params.model_name (jsStr "gemini-1.5-pro"))),
    (jsStr "stream", FormValue.str (boolToString (jsOrFalse params.stream))) ]

/-- `SmartSellService.getProductRecommendation` from
`src/services/smartSellService.ts` lines 31-45: POST the form body through
the transport and return the parsed response body unchanged (failures
propagate, there is no catch). -/
def getProductRecommendation
    (post : List (List Nat × FormValue) → Except (List Nat) SmartSellResponse)
    (params : SmartSellRequest) : Except (List Nat) SmartSellResponse :=
  post (buildSmartSellForm params)

/-- C10: the smart-sell wrapper builds a multipart body with exactly the
four fields `image`, `text`, `model_name` and `stream`, in that order;
`model_name` defaults to `"gemini-1.5-pro"` when omitted, `stream` defaults
to the string `"false"` when omitted; and whatever response body the
transport yields is returned unchanged. -/
theorem c10_smart_sell_form (params : SmartSellRequest)
    (post : List (List Nat × FormValue) → Except (List Nat) SmartSellResponse) :
    (buildSmartSellForm params).map Prod.fst =
        [jsStr "image", jsStr "text", jsStr "model_name", jsStr "stream"] ∧
      (params.model_name = none →
        (buildSmartSellForm params).map Prod.snd =
          [FormValue.file params.image, FormValue.str params.text,
            FormValue.str (jsStr "gemini-1.5-pro"),
            FormValue.str (boolToString (jsOrFalse params.stream))]) ∧
      (params.stream = none →
        (buildSmartSellForm params).map Prod.snd =
          [FormValue.file params.image, FormValue.str params.text,
            FormValue.str (jsOrDefaultStr params.model_name (jsStr "gemini-1.5-pro")),
            FormValue.str (jsStr "false")]) ∧
      ∀ r, post (buildSmartSellForm params) = Except.ok r →
        getProductRecommendation post params = Except.ok r := by
  refine ⟨rfl, ?_, ?_, ?_⟩
  · intro hname
    simp [buildSmartSellForm, jsOrDefaultStr, hname]
  · intro hstream
    simp [buildSmartSellForm, jsOrFalse, hstream, boolToString]
  · intro r hr
    rw [getProductRecommendation, hr]

/-- A concrete request used by the witnesses: both optional fields omitted. -/
def sampleRequest : SmartSellRequest where
  image := jsStr "imagebytes"
  text := jsStr "I would like sunglasses for summer use"
  model_name := none
  stream := none

/-- A concrete response body used by the witnesses. -/
def sampleResponse : SmartSellResponse where
  image_id := jsStr "img-1"
  sell_text := jsStr "These sunglasses suit you."
  image_base64 := jsStr "QUJD"
  product_id := jsStr "2"
  product_name := jsStr "Summer Sunglasses"

theorem c10_smart_sell_form_witness :
    sampleRequest.model_name = none ∧ sampleRequest.stream = none ∧
      (buildSmartSellForm sampleRequest).map Prod.snd =
        [FormValue.file sampleRequest.image, FormValue.str sampleRequest.text,
          FormValue.str (jsOrDefaultStr sampleRequest.model_name (jsStr "gemini-1.5-pro")),
          FormValue.str (jsStr "false")] ∧
      getProductRecommendation (fun _ => Except.ok sampleResponse) sampleRequest =
        Except.ok sampleResponse :=
  ⟨rfl, rfl,
    (c10_smart_sell_form sampleRequest (fun _ => Except.ok sampleResponse)).2.2.1 rfl,
    (c10_smart_sell_form sampleRequest (fun _ => Except.ok sampleResponse)).2.2.2
      sampleResponse rfl⟩

/-- View state held by the `useSmartSell` hook: loading flag, error string,
last successful result. -/
structure SmartSellHookState where
  isLoading : Bool
  error : Option (List Nat)
  result : Option SmartSellResponse
deriving DecidableEq, Repr

/-- Modelled from the spec: the `useSmartSell` hook (`src/hooks/useSmartSell.ts`
is not under `src/`) catches a failed request at the request boundary and
"surfaces a non-empty error message and leaves prior result state
unchanged"; on success it stores the new result.  The non-empty guarantee
is the usual `err.message || fallback` pattern the spec describes. -/
def smartSellSettle (st : SmartSellHookState)
    (outcome : Except (List Nat) SmartSellResponse) : SmartSellHookState :=
  match outcome with
  | Except.ok r => { isLoading := false, error := none, result := some r }
  | Except.error msg =>
      { st with
          isLoading := false,
          error := some (if msg = [] then jsStr "Request failed" else msg) }

/-- Modelled from the spec: the `useSmartSell` hook's `reset` discards the
transient AI response state ("discarded when a modal closes or start over
is invoked"). -/
def smartSellReset (_st : SmartSellHookState) : SmartSellHookState :=
  { isLoading := false, error := none, result := none }

/-- C4: when the transport fails, the smart-sell service wrapper propagates
the failure unchanged to the request boundary, where the hook surfaces a
non-empty error string in view state and leaves the previously displayed
result untouched. -/
theorem c4_error_atomicity (params : SmartSellRequest)
    (post : List (List Nat × FormValue) → Except (List Nat) SmartSellResponse)
    (st : SmartSellHookState) (msg : List Nat)
    (hfail : post (buildSmartSellForm params) = Except.error msg) :
    getProductRecommendation post params = Except.error msg ∧
      (∃ e, (smartSellSettle st (Except.error msg)).error = some e ∧ e ≠ []) ∧
      (smartSellSettle st (Except.error msg)).result = st.result := by
  refine ⟨by rw [getProductRecommendation, hfail], ?_, rfl⟩
  by_cases hmsg : msg = []
  · refine ⟨jsStr "Request failed", ?_, by decide⟩
    simp [smartSellSettle, hmsg]
  · exact ⟨msg, by simp [smartSellSettle, hmsg], hmsg⟩

/-- A concrete prior view state used by the witnesses. -/
def samplePriorState : SmartSellHookState where
  isLoading := true
  error := none
  result := some sampleResponse

/-- `DescribeResponse` as used by `ImageDescribe.tsx` (`result.description`,
`result.image_id`); `describeService.ts` itself is not under `src/`, and the
spec lists exactly these response fields. -/
structure DescribeResult where
  description : List Nat
  image_id : List Nat
deriving DecidableEq, Repr

/-- View state held by the `useDescribe` hook. -/
structure DescribeHookState where
  isLoading : Bool
  error : Option (List Nat)
  result : Option DescribeResult
  altText : Option (List Nat)
deriving DecidableEq, Repr

/-- Modelled from the spec: the `useDescribe` hook (`src/hooks/useDescribe.ts`
is not under `src/`) exposes `reset`, which discards the per-request AI
response payload (description text, alt text, identifiers). -/
def describeReset (_st : DescribeHookState) : DescribeHookState :=
  { isLoading := false, error := none, result := none, altText := none }

/-- `FashionAssistantResponse` from `src/services/fashionService.ts`. -/
structure FashionAssistantResponse where
  image_id : List Nat
  description : List Nat
deriving DecidableEq, Repr

/-- View state held by the `useFashion` hook. -/
structure FashionHookState where
  isLoading : Bool
  error : Option (List Nat)
  result : Option FashionAssistantResponse
deriving DecidableEq, Repr

/-- Modelled from the spec: the `useFashion` hook (`src/hooks/useFashion.ts`
is not under `src/`) exposes `reset`, which discards the per-request AI
response payload. -/
def fashionReset (_st : FashionHookState) : FashionHookState :=
  { isLoading := false, error := none, result := none }

/-- Local state of the `ImageDescribe` modal (`ImageDescribe.tsx` lines
23-31 plus the `useDescribe` hook). -/
structure DescribeModalState where
  selectedImage : Option (List Nat)
  copySuccessDescription : Bool
  copySuccessAlt : Bool
  speech : SpeechState
  hook : DescribeHookState
deriving DecidableEq, Repr

/-- `handleReset` from `ImageDescribe.tsx` lines 191-197: `reset()`, then
`stopDescription()`, then clear the selected image and both copy flags. -/
def handleReset (st : DescribeModalState) : DescribeModalState :=
  { st with
      hook := describeReset st.hook,
      speech := stopDescription st.speech,
      selectedImage := none,
      copySuccessDescription := false,
      copySuccessAlt := false }

/-- Local state of the `SmartProductSell` modal (`SmartProductSell.tsx`
lines 14-20 plus the `useSmartSell` hook). -/
structure SmartSellModalState where
  userImage : Option (List Nat)
  queryText : List Nat
  copySuccess : Bool
  speech : SpeechState
  hook : SmartSellHookState
deriving DecidableEq, Repr

/-- `handleStartOver` from `SmartProductSell.tsx` lines 149-154: `reset()`,
then `stopRecommendation()`, then clear the user image and the query text. -/
def handleStartOver (st : SmartSellModalState) : SmartSellModalState :=
  { st with
      hook := smartSellReset st.hook,
      speech := stopRecommendation st.speech,
      userImage := none,
      queryText := [] }

/-- Local state of the `FashionAssistant` modal (`FashionAssistant.tsx`
plus the `useFashion` hook). -/
structure FashionModalState where
  userImage : Option (List Nat)
  copySuccess : Bool
  speech : SpeechState
  hook : FashionHookState
deriving DecidableEq, Repr

/-- `handleStartOver` from `FashionAssistant.tsx` lines 153-157: `reset()`,
then `stopAdvice()`, then clear the user image. -/
def handleStartOverFashion (st : FashionModalState) : FashionModalState :=
  { st with
      hook := fashionReset st.hook,
      speech := stopAdvice st.speech,
      userImage := none }

/-- C6: invoking start over in any of the three modals discards the
transient AI response state: afterwards the stored result, the selected
image, and (in the smart-sell modal) the query text all equal their initial
empty values (`useState(null)` / `useState('')`). -/
theorem c6_start_over_discards (d : DescribeModalState) (s : SmartSellModalState)
    (f : FashionModalState) :
    (handleReset d).hook.result = none ∧
      (handleReset d).hook.altText = none ∧
      (handleReset d).selectedImage = none ∧
      (handleStartOver s).hook.result = none ∧
      (handleStartOver s).userImage = none ∧
      (handleStartOver s).queryText = [] ∧
      (handleStartOverFashion f).hook.result = none ∧
      (handleStartOverFashion f).userImage = none :=
  ⟨rfl, rfl, rfl, rfl, rfl, rfl, rfl, rfl⟩

theorem c4_error_atomicity_witness :
    getProductRecommendation (fun _ => Except.error (jsStr "Network Error")) sampleRequest =
        Except.error (jsStr "Network Error") ∧
      (∃ e, (smartSellSettle samplePriorState (Except.error (jsStr "Network Error"))).error =
          some e ∧ e ≠ []) ∧
      (smartSellSettle samplePriorState (Except.error (jsStr "Network Error"))).result =
        samplePriorState.result :=
  c4_error_atomicity sampleRequest (fun _ => Except.error (jsStr "Network Error"))
    samplePriorState (jsStr "Network Error") rfl

end Nero
